import Mathlib

/-!
Shallow embedding of the PayPal → Shopify bridge servers
(`src/unnamed/part_000`, `src/unnamed/part_001`, `src/server.js`).
Amounts are modelled as exact rationals (ℚ); JavaScript's
`(+x.toFixed(2))` rounding is `round2` (round half away from zero at two
decimals, matching ECMA-262 ToFixed's sign-split tie rule).  JSON scalar
inputs that the code runs through truthiness tests and `parseFloat` /
`Number` are modelled by the small value type `JVal`.
-/

/-- A JSON-ish scalar as received in a request body: absent/null,
a number, or a string.  (JS `undefined` and `null` are identified;
NaN never occurs as an input literal.) -/
inductive JVal where
  | null : JVal
  | num : ℚ → JVal
  | str : String → JVal
deriving DecidableEq

/-- JavaScript truthiness for `JVal`. -/
def JVal.truthy : JVal → Bool
  | .null => false
  | .num q => q ≠ 0
  | .str s => s ≠ ""

/-- Whitespace characters skipped by `parseFloat` / `Number`. -/
def isWsChar (c : Char) : Bool :=
  c = ' ' ∨ c = '\t' ∨ c = '\n' ∨ c = '\r'

/-- Longest prefix of decimal digits, returned as digit values plus rest. -/
def takeDigits : List Char → List ℕ × List Char
  | [] => ([], [])
  | c :: rest =>
    if c.isDigit then
      let (ds, r) := takeDigits rest
      ((c.toNat - 48) :: ds, r)
    else ([], c :: rest)

/-- Value of a digit list read most-significant first. -/
def natOfDigits (ds : List ℕ) : ℕ :=
  ds.foldl (fun a d => a * 10 + d) 0

/-- Parse an optional sign followed by `digits [. digits]` (the plain
decimal forms of a JS numeric literal; exponents and `Infinity` are not
used by this repository's inputs).  Returns the value and the unconsumed
rest, or `none` for NaN. -/
def parseDec (cs : List Char) : Option (ℚ × List Char) :=
  let (sign, cs1) : ℚ × List Char :=
    match cs with
    | '-' :: r => (-1, r)
    | '+' :: r => (1, r)
    | _ => (1, cs)
  let (ip, cs2) := takeDigits cs1
  let (fp, cs3) :=
    match cs2 with
    | '.' :: r => takeDigits r
    | _ => ([], cs2)
  if ip.isEmpty ∧ fp.isEmpty then none
  else some (sign * ((natOfDigits ip : ℚ) + (natOfDigits fp : ℚ) / (10 ^ fp.length)), cs3)

/-- JS `parseFloat` on a string: skip leading whitespace, parse the
longest numeric prefix; `none` models NaN. -/
def parseFloatStr (s : String) : Option ℚ :=
  (parseDec (s.data.dropWhile isWsChar)).map (·.1)

/-- JS `parseFloat` applied to a `JVal` (numbers pass through; `null`
coerces to the string "null" and parses to NaN). -/
def parseFloatJ : JVal → Option ℚ
  | .null => none
  | .num q => some q
  | .str s => parseFloatStr s

/-- JS `Number(x)`: `null` and whitespace-only strings give 0; other
strings must parse in full; `none` models NaN. -/
def jsNumber : JVal → Option ℚ
  | .null => some 0
  | .num q => some q
  | .str s =>
    let cs := s.data.dropWhile isWsChar
    let cs := (cs.reverse.dropWhile isWsChar).reverse
    if cs.isEmpty then some 0
    else
      match parseDec cs with
      | some (q, []) => some q
      | _ => none

/-- JS `+(x).toFixed(2)` as exact rational rounding: round half away from
zero at two decimal places (ECMA-262 ToFixed splits off the sign, then
rounds ties to the larger magnitude). -/
def round2 (x : ℚ) : ℚ :=
  if x < 0 then -(((⌊(-x) * 100 + 1 / 2⌋ : ℤ) : ℚ) / 100)
  else ((⌊x * 100 + 1 / 2⌋ : ℤ) : ℚ) / 100

/-- Two-digit zero padding for cents. -/
def pad2 (n : ℕ) : String :=
  if n < 10 then "0" ++ toString n else toString n

/-- JS `(q).toFixed(2)` for a nonnegative rational. -/
def toFixed2Abs (q : ℚ) : String :=
  let n : ℕ := (⌊q * 100 + 1 / 2⌋ : ℤ).toNat
  toString (n / 100) ++ "." ++ pad2 (n % 100)

/-- JS `Number.prototype.toFixed(2)` (string result). -/
def toFixed2 (q : ℚ) : String :=
  if q < 0 then "-" ++ toFixed2Abs (-q) else toFixed2Abs q

/-- JS `o || d` for an optional string (empty string is falsy). -/
def orStr (o : Option String) (d : String) : String :=
  match o with
  | some s => if s = "" then d else s
  | none => d

/-- JS `o || null` for an optional string. -/
def jsOrNull (o : Option String) : Option String :=
  match o with
  | some s => if s = "" then none else some s
  | none => none

/-- JS `o || undefined` for an optional string. -/
def jsOrUndef (o : Option String) : Option String := jsOrNull o

/-- Digits of a terminating fractional part, with fuel. -/
def fracDigits : ℚ → ℕ → String
  | _, 0 => ""
  | x, n + 1 =>
    if x = 0 then ""
    else
      let d : ℤ := ⌊x * 10⌋
      toString d ++ fracDigits (x * 10 - d) n

/-- JS `String(x)` for a number, restricted to the terminating decimals
this repository produces (shortest plain decimal form). -/
def jsNumToString (q : ℚ) : String :=
  let s := if q < 0 then "-" else ""
  let a := if q < 0 then -q else q
  let ip : ℤ := ⌊a⌋
  let fr := a - ip
  s ++ toString ip ++ (if fr = 0 then "" else "." ++ fracDigits fr 20)

/-- JS `it.quantity || 1`: omitted or falsy (0) quantity defaults to 1. -/
def qtyOf (q : Option ℤ) : ℤ :=
  match q with
  | some n => if n = 0 then 1 else n
  | none => 1

/-- A rational that is a whole number of cents. -/
def isCents (q : ℚ) : Prop := ∃ k : ℤ, q * 100 = k

/-- One inbound cart line: `{ variant_id, quantity?, price? }`.
`price` is the storefront's discounted per-unit price hint
(`unit_price` / `price` in the JS payloads), restricted to the
numeric-or-absent values the handlers consume. -/
structure LineItemIn where
  variant_id : ℤ
  quantity : Option ℤ
  price : Option ℚ
deriving DecidableEq

/-- Inbound `address` object; every field may be absent. -/
structure AddrIn where
  firstName : Option String := none
  lastName : Option String := none
  address1 : Option String := none
  city : Option String := none
  zip : Option String := none
  country : Option String := none
  phone : Option String := none
  email : Option String := none
deriving DecidableEq

/-! ## part_000: GraphQL reconciler (`src/unnamed/part_000`) -/

/-- Money value in a GraphQL line item (`originalUnitPrice`). -/
structure GqlMoney where
  amount : ℚ
  currencyCode : String
deriving DecidableEq

/-- One reconciled GraphQL line item (part_000 lines 140-147). -/
structure GqlLineItem where
  variantId : String
  quantity : ℤ
  originalUnitPrice : GqlMoney
deriving DecidableEq

/-- part_000 line 116: `line_items.reduce((sum, it) => sum + (it.quantity || 1), 0)`. -/
def totalUnits000 (items : List LineItemIn) : ℤ :=
  (items.map (fun it => qtyOf it.quantity)).sum

/-- The record built for one item (part_000 lines 138-147):
`unitPrice = +(lineAmount / qty).toFixed(2)`. -/
def mkGqlItem (cc : String) (it : LineItemIn) (lineAmount : ℚ) : GqlLineItem :=
  { variantId := "gid://shopify/ProductVariant/" ++ toString it.variant_id
    quantity := qtyOf it.quantity
    originalUnitPrice :=
      { amount := round2 (lineAmount / (qtyOf it.quantity : ℚ))
        currencyCode := cc } }

/-- part_000 lines 123-148: the proportional distribution loop, carrying the
mutable `running` accumulator.  Every item except the last gets
`+(itemsTotalTarget * share).toFixed(2)` with `share = qty / totalUnits`;
the last absorbs `+(itemsTotalTarget - running).toFixed(2)`.  Each output
pairs the item's `lineAmount` with the built GraphQL record. -/
def gqlAux (t : ℚ) (U : ℤ) (cc : String) : List LineItemIn → ℚ → List (ℚ × GqlLineItem)
  | [], _ => []
  | [it], r =>
    let la := round2 (t - r)
    [(la, mkGqlItem cc it la)]
  | it :: it2 :: rest, r =>
    let la := round2 (t * ((qtyOf it.quantity : ℚ) / (U : ℚ)))
    (la, mkGqlItem cc it la) :: gqlAux t U cc (it2 :: rest) (r + la)

/-- part_000's `gqlLineItems` array. -/
def gqlLineItems (t : ℚ) (U : ℤ) (cc : String) (items : List LineItemIn) : List GqlLineItem :=
  (gqlAux t U cc items 0).map (·.2)

/-- The intermediate `lineAmount` of each item in the distribution loop. -/
def lineAmounts (t : ℚ) (U : ℤ) (cc : String) (items : List LineItemIn) : List ℚ :=
  (gqlAux t U cc items 0).map (·.1)

/-- part_000 shipping/billing address (lines 151-159): note the non-empty
defaults for `firstName`, `lastName` and `country`, and `phone || null`. -/
structure Addr000 where
  firstName : String
  lastName : String
  address1 : String
  city : String
  zip : String
  country : String
  phone : Option String
deriving DecidableEq

def shippingAddress000 (a : AddrIn) : Addr000 :=
  { firstName := orStr a.firstName "PayPal"
    lastName := orStr a.lastName "Customer"
    address1 := orStr a.address1 ""
    city := orStr a.city ""
    zip := orStr a.zip ""
    country := orStr a.country "US"
    phone := jsOrNull a.phone }

/-- part_000 shipping line (lines 171-176). -/
structure ShipLine000 where
  title : String
  price : String
deriving DecidableEq

/-- part_000 `DraftOrderInput` (lines 161-176). -/
structure DraftInput000 where
  lineItems : List GqlLineItem
  note : String
  shippingAddress : Option Addr000
  billingAddress : Option Addr000
  shippingLine : Option ShipLine000
deriving DecidableEq

/-- part_000 lines 161-176: assemble `input`; the shipping line is emitted
only under `shipPrice > 0 && shipping_label`. -/
def input000 (gql : List GqlLineItem) (note : String) (addr : Option Addr000)
    (shipPrice : ℚ) (label : Option String) : DraftInput000 :=
  { lineItems := gql
    note := note
    shippingAddress := addr
    billingAddress := addr
    shippingLine :=
      if 0 < shipPrice then
        match label with
        | some l => if l = "" then none else some { title := l, price := toFixed2 shipPrice }
        | none => none
      else none }

/-- part_000 request body (lines 67-76). -/
structure Body000 where
  paypalOrderId : Option String := none
  paypalCaptureId : Option String := none
  total_paid : JVal := .null
  currency : Option String := none
  address : Option AddrIn := none
  shipping_label : Option String := none
  shipping_price : JVal := .null
  line_items : Option (List LineItemIn) := none
deriving DecidableEq

/-- part_000 line 84: `total_paid ? parseFloat(total_paid) : null`.
The PayPal capture-lookup fallback (lines 87-100) is external network
I/O and is modelled as unavailable, which is the hypothesis of every
claim about this path. -/
def paidAmount000 (tp : JVal) : Option ℚ :=
  if tp.truthy then parseFloatJ tp else none

/-- part_000 line 108: `parseFloat(shipping_price || 0) || 0`. -/
def shipPrice000 (sp : JVal) : ℚ :=
  if sp.truthy then
    match parseFloatJ sp with
    | some q => q
    | none => 0
  else 0

/-- part_000 line 121: `(currency || SHOPIFY_CURRENCY || 'USD').toUpperCase()`. -/
def currencyCode000 (envCur : Option String) (cur : Option String) : String :=
  (orStr cur (orStr envCur "USD")).toUpper

/-- part_000 line 163: the traceability note. -/
def note000 (b : Body000) : String :=
  ("PayPal order " ++ orStr b.paypalOrderId "" ++ " | capture " ++
    orStr b.paypalCaptureId "").trim

/-- The part_000 request handler (lines 79-176), up to the draft-order
submission (the Shopify calls are external I/O).  Errors are
`(HTTP status, error code)`. -/
def handler000 (envCur : Option String) (b : Body000) :
    Except (ℕ × String) DraftInput000 :=
  match b.line_items with
  | none => .error (400, "NO_LINE_ITEMS")
  | some items =>
    if items.length = 0 then .error (400, "NO_LINE_ITEMS")
    else
      match paidAmount000 b.total_paid with
      | none => .error (400, "INVALID_TOTAL_PAID")
      | some paid =>
        if paid = 0 then .error (400, "INVALID_TOTAL_PAID")
        else
          let shipPrice := shipPrice000 b.shipping_price
          let itemsTotalTarget := round2 (paid - shipPrice)
          if itemsTotalTarget < 0 then .error (400, "NEGATIVE_ITEMS_TOTAL")
          else
            let totalUnits := totalUnits000 items
            if totalUnits ≤ 0 then .error (400, "INVALID_QUANTITIES")
            else
              let cc := currencyCode000 envCur b.currency
              .ok (input000 (gqlLineItems itemsTotalTarget totalUnits cc items)
                (note000 b) (b.address.map shippingAddress000) shipPrice
                b.shipping_label)

/-! ## server.js: GraphQL variant (`src/server.js`, first file) -/

/-- server.js request body for `/api/shopify/order-from-paypal`
(lines 238-251). -/
structure BodyS where
  paypalOrderId : Option String := none
  paypalCaptureId : Option String := none
  address : Option AddrIn := none
  shipping_label : Option String := none
  shipping_price : JVal := .null
  line_items : List LineItemIn := []
deriving DecidableEq

/-- server.js lines 267-284: the billing/shipping sub-objects, modelled as
the literal key/value list of the JS object (values may be absent);
`phone: A.phone || null`.  There is no `email` key. -/
def addrListS (A : AddrIn) : List (String × Option String) :=
  [("firstName", A.firstName), ("lastName", A.lastName),
   ("address1", A.address1), ("city", A.city), ("zip", A.zip),
   ("country", A.country), ("phone", jsOrNull A.phone)]

/-- server.js draft line item (lines 285-290):
`quantity: parseInt(li.quantity, 10)` (absent quantity is NaN, `none`),
`price: li.price ? String(li.price) : null`. -/
structure SLineItem where
  variantId : String
  quantity : Option ℤ
  price : Option String
deriving DecidableEq

def sLineItems (items : List LineItemIn) : List SLineItem :=
  items.map fun li =>
    { variantId := "gid://shopify/ProductVariant/" ++ toString li.variant_id
      quantity := li.quantity
      price :=
        match li.price with
        | some p => if p = 0 then none else some (jsNumToString p)
        | none => none }

/-- server.js shipping line value (lines 291-297). -/
structure ShipLineS where
  title : String
  price : String
deriving DecidableEq

/-- JS `String(x)` on a `JVal`. -/
def jvalToString : JVal → String
  | .null => "null"
  | .num q => jsNumToString q
  | .str s => s

/-- server.js `draftInput` (lines 265-299): email at order level only
(`A.email || undefined`); the shipping line is emitted whenever
`b.shipping_price !== "" && b.shipping_price != null`, including 0. -/
structure DraftInputS where
  email : Option String
  billingAddress : List (String × Option String)
  shippingAddress : List (String × Option String)
  lineItems : List SLineItem
  shippingLine : Option ShipLineS
  note : String
deriving DecidableEq

def serverDraftInput (b : BodyS) : DraftInputS :=
  let A := b.address.getD {}
  { email := jsOrUndef A.email
    billingAddress := addrListS A
    shippingAddress := addrListS A
    lineItems := sLineItems b.line_items
    shippingLine :=
      if b.shipping_price ≠ .str "" ∧ b.shipping_price ≠ .null then
        some { title := orStr b.shipping_label "Shipping"
               price := jvalToString b.shipping_price }
      else none
    note := ("PayPal order " ++ orStr b.paypalOrderId "" ++ " | capture " ++
      orStr b.paypalCaptureId "").trim }

/-! ## part_001: REST variant (`src/unnamed/part_001`, first file) -/

/-- part_001 line 20:
`DEFAULT_ORDER_EMAIL = process.env.DEFAULT_ORDER_EMAIL || 'orders@example.com'`. -/
def DEFAULT_ORDER_EMAIL (env : Option String) : String :=
  orStr env "orders@example.com"

/-- part_001 draft line item (lines 83-96): the hinted per-unit price is
passed through as `p.toFixed(2)` when present (the `Number.isNaN` guard
cannot fire for the numeric-or-absent prices modelled here). -/
structure RestLineItem where
  variant_id : ℤ
  quantity : ℤ
  price : Option String
deriving DecidableEq

def draftLineItems (items : List LineItemIn) : List RestLineItem :=
  items.map fun li =>
    { variant_id := li.variant_id
      quantity := qtyOf li.quantity
      price := li.price.map toFixed2 }

/-- part_001 lines 104-112: address sub-object, all fields `|| ''`,
modelled as the literal key/value list of the JS object. -/
def shippingAddress001 (a : AddrIn) : List (String × String) :=
  [("first_name", orStr a.firstName ""), ("last_name", orStr a.lastName ""),
   ("address1", orStr a.address1 ""), ("city", orStr a.city ""),
   ("zip", orStr a.zip ""), ("country", orStr a.country ""),
   ("phone", orStr a.phone "")]

/-- part_001 lines 101-116: order-level email, defaulting to
`DEFAULT_ORDER_EMAIL` and overridden by a truthy `address.email`. -/
def orderEmail001 (defaultEmail : String) (addr : Option AddrIn) : String :=
  match addr with
  | none => defaultEmail
  | some a =>
    match a.email with
    | some e => if e = "" then defaultEmail else e
    | none => defaultEmail

/-- part_001 shipping line (lines 118-126): emitted only when
`Number(shipping_price)` is a number `> 0`. -/
structure ShipLine001 where
  title : String
  price : String
deriving DecidableEq

def shippingLine001 (sp : JVal) (label : Option String) : Option ShipLine001 :=
  match jsNumber sp with
  | none => none
  | some q =>
    if 0 < q then some { title := orStr label "Shipping", price := toFixed2 q }
    else none

/-- part_001 request body (lines 69-76). -/
structure Body001 where
  paypalOrderId : Option String := none
  paypalCaptureId : Option String := none
  address : Option AddrIn := none
  shipping_label : Option String := none
  shipping_price : JVal := .null
  line_items : List LineItemIn := []
deriving DecidableEq

/-- part_001 `draft_order` payload (lines 129-140). -/
structure Draft001 where
  email : String
  line_items : List RestLineItem
  shipping_address : Option (List (String × String))
  billing_address : Option (List (String × String))
  shipping_line : Option ShipLine001
  use_customer_default_address : Bool
  note : String
  tags : String
deriving DecidableEq

/-- part_001 lines 83-140: assemble the draft order payload;
`billing_address = { ...shipping_address }`. -/
def draftOrder001 (defaultEmail : String) (b : Body001) : Draft001 :=
  { email := orderEmail001 defaultEmail b.address
    line_items := draftLineItems b.line_items
    shipping_address := b.address.map shippingAddress001
    billing_address := b.address.map shippingAddress001
    shipping_line := shippingLine001 b.shipping_price b.shipping_label
    use_customer_default_address := false
    note := "PayPal order " ++ orStr b.paypalOrderId "" ++
      (match b.paypalCaptureId with
       | some c => if c = "" then "" else " | capture " ++ c
       | none => "")
    tags := "paypal-bridge" }

/-! ## Arithmetic lemmas about `round2` -/

theorem round2_isCents (x : ℚ) : isCents (round2 x) := by
  rw [round2]
  split
  · exact ⟨-⌊(-x) * 100 + 1 / 2⌋, by push_cast [neg_div]; ring⟩
  · exact ⟨⌊x * 100 + 1 / 2⌋, by field_simp⟩

theorem isCents_sub {x y : ℚ} (hx : isCents x) (hy : isCents y) : isCents (x - y) := by
  obtain ⟨a, ha⟩ := hx
  obtain ⟨b, hb⟩ := hy
  exact ⟨a - b, by push_cast [sub_mul, ha, hb]; ring⟩

theorem isCents_add {x y : ℚ} (hx : isCents x) (hy : isCents y) : isCents (x + y) := by
  obtain ⟨a, ha⟩ := hx
  obtain ⟨b, hb⟩ := hy
  exact ⟨a + b, by push_cast [add_mul, ha, hb]; ring⟩

theorem isCents_zero : isCents 0 := ⟨0, by norm_num⟩

theorem isCents_sum {l : List ℚ} (h : ∀ q ∈ l, isCents q) : isCents l.sum := by
  induction l with
  | nil => simpa using isCents_zero
  | cons a l ih =>
    rw [List.sum_cons]
    exact isCents_add (h a (by simp)) (ih fun q hq => h q (by simp [hq]))

theorem round2_eq_self {x : ℚ} (h : isCents x) : round2 x = x := by
  obtain ⟨k, hk⟩ := h
  have hx : x = (k : ℚ) / 100 := by
    field_simp
    linarith [hk]
  have hhalf : ⌊(1 / 2 : ℚ)⌋ = 0 := by
    rw [Int.floor_eq_zero_iff]
    constructor <;> norm_num
  rw [round2]
  split
  · have : (-x) * 100 + 1 / 2 = ((-k : ℤ) : ℚ) + 1 / 2 := by
      rw [hx]; push_cast; ring
    rw [this, Int.floor_int_add, hhalf, hx]
    push_cast
    ring
  · have : x * 100 + 1 / 2 = ((k : ℤ) : ℚ) + 1 / 2 := by
      rw [hx]; push_cast; ring
    rw [this, Int.floor_int_add, hhalf, hx]
    push_cast
    ring

/-- Evaluate `round2` at a concrete nonnegative argument. -/
theorem round2_eval {x : ℚ} {k : ℤ} (h0 : 0 ≤ x) (h1 : (k : ℚ) ≤ x * 100 + 1 / 2)
    (h2 : x * 100 + 1 / 2 < k + 1) : round2 x = (k : ℚ) / 100 := by
  rw [round2, if_neg (not_lt.mpr h0), Int.floor_eq_iff.mpr ⟨h1, by exact_mod_cast h2⟩]

/-- Evaluate `round2` at a concrete negative argument. -/
theorem round2_eval_neg {x : ℚ} {k : ℤ} (h0 : x < 0) (h1 : (k : ℚ) ≤ (-x) * 100 + 1 / 2)
    (h2 : (-x) * 100 + 1 / 2 < k + 1) : round2 x = -((k : ℚ) / 100) := by
  rw [round2, if_pos h0, Int.floor_eq_iff.mpr ⟨h1, by exact_mod_cast h2⟩]

/-! ## Structure of the part_000 distribution loop -/

/-- The non-last line amount of an item: `round2(target * qty / totalUnits)`. -/
def amt (t : ℚ) (U : ℤ) (li : LineItemIn) : ℚ :=
  round2 (t * ((qtyOf li.quantity : ℚ) / (U : ℚ)))

theorem gqlAux_fst (t : ℚ) (U : ℤ) (cc : String) :
    ∀ (items : List LineItemIn) (r : ℚ), items ≠ [] →
      (gqlAux t U cc items r).map Prod.fst =
        (items.dropLast.map (amt t U)) ++
          [round2 (t - (r + ((items.dropLast.map (amt t U)).sum)))] := by
  intro items
  induction items with
  | nil => intro r h; exact absurd rfl h
  | cons it rest ih =>
    intro r _
    cases rest with
    | nil => simp [gqlAux]
    | cons it2 rest2 =>
      have hne : it2 :: rest2 ≠ [] := by simp
      have hstep : (gqlAux t U cc (it :: it2 :: rest2) r).map Prod.fst
          = amt t U it :: (gqlAux t U cc (it2 :: rest2) (r + amt t U it)).map Prod.fst := rfl
      have hdrop : (it :: it2 :: rest2).dropLast = it :: (it2 :: rest2).dropLast := rfl
      rw [hstep, ih (r + amt t U it) hne, hdrop]
      simp only [List.map_cons, List.sum_cons, List.cons_append, add_assoc]

theorem lineAmounts_eq (t : ℚ) (U : ℤ) (cc : String) (items : List LineItemIn)
    (h : items ≠ []) :
    lineAmounts t U cc items =
      (items.dropLast.map (amt t U)) ++
        [round2 (t - ((items.dropLast.map (amt t U)).sum))] := by
  rw [lineAmounts, gqlAux_fst t U cc items 0 h, zero_add]

/-- The sum of the distributed line amounts telescopes back to the target,
provided the target is a whole number of cents. -/
theorem lineAmounts_sum (t : ℚ) (U : ℤ) (cc : String) (items : List LineItemIn)
    (h : items ≠ []) (ht : isCents t) :
    (lineAmounts t U cc items).sum = t := by
  rw [lineAmounts_eq t U cc items h]
  have hS : isCents ((items.dropLast.map (amt t U)).sum) := by
    apply isCents_sum
    intro q hq
    obtain ⟨li, _, rfl⟩ := List.mem_map.mp hq
    exact round2_isCents _
  rw [List.sum_append, List.sum_cons, List.sum_nil, add_zero,
    round2_eq_self (isCents_sub ht hS)]
  ring

/-- Products over the reconciled output when all quantities are 1 collapse
to the intermediate line amounts. -/
theorem gqlAux_prod_qty1 (t : ℚ) (U : ℤ) (cc : String) :
    ∀ (items : List LineItemIn) (r : ℚ), (∀ li ∈ items, qtyOf li.quantity = 1) →
      ((gqlAux t U cc items r).map
          (fun p => p.2.originalUnitPrice.amount * (p.2.quantity : ℚ))).sum =
        ((gqlAux t U cc items r).map Prod.fst).sum := by
  intro items
  induction items with
  | nil => intro r _; simp [gqlAux]
  | cons it rest ih =>
    intro r hq
    have h1 : qtyOf it.quantity = 1 := hq it (by simp)
    cases rest with
    | nil =>
      simp only [gqlAux, mkGqlItem, List.map_cons, List.map_nil, List.sum_cons,
        List.sum_nil, h1, Int.cast_one, div_one, add_zero, mul_one]
      exact round2_eq_self (round2_isCents _)
    | cons it2 rest2 =>
      have hrest : ∀ li ∈ it2 :: rest2, qtyOf li.quantity = 1 :=
        fun li hli => hq li (by simp [hli])
      simp only [gqlAux, mkGqlItem, List.map_cons, List.sum_cons, h1, Int.cast_one,
        div_one, mul_one, ih _ hrest]
      congr 1
      exact round2_eq_self (round2_isCents _)

/-- The spec's `finalLineAmount = finalUnitPrice × quantity` (§3) read off
a reconciled part_000 line item. -/
def finalLineAmount (g : GqlLineItem) : ℚ :=
  g.originalUnitPrice.amount * (g.quantity : ℚ)

/-- The concrete request of the C1 counterexample: one item with quantity 3,
`total_paid = 10`, no shipping. -/
def c1Body : Body000 :=
  { total_paid := .num 10, line_items := some [⟨7, some 3, none⟩] }

/-- C1 counterexample: the request `c1Body` is accepted by the part_000
reconciler, yet the sum over reconciled items of
`finalUnitPrice × quantity` is 9.99, not `round2(10 − 0) = 10.00`:
rounding the unit price at quantity 3 loses a cent. -/
theorem c1_counterexample :
    (handler000 none c1Body).toOption.map
        (fun inp => (inp.lineItems.map finalLineAmount).sum) = some (999 / 100) ∧
      (999 / 100 : ℚ) ≠ round2 ((10 : ℚ) - 0) := by
  have er : round2 (10 : ℚ) = 10 := by
    rw [round2_eval (k := 1000) (by norm_num) (by norm_num) (by norm_num)]
    norm_num
  have eu : round2 ((10 : ℚ) / 3) = 333 / 100 := by
    rw [round2_eval (k := 333) (by norm_num) (by norm_num) (by norm_num)]
    norm_num
  constructor
  · simp only [handler000, c1Body, paidAmount000, parseFloatJ, JVal.truthy,
      shipPrice000, totalUnits000, gqlLineItems, gqlAux, mkGqlItem, qtyOf,
      finalLineAmount, input000]
    norm_num [er, eu, Except.toOption, finalLineAmount]
  · norm_num [er]

/-- C1 (amended): for every accepted request the intermediate per-item
line amounts of the part_000 distribution sum to the target
`round2(capturedTotal − shippingCharge)` exactly (the target is always a
whole number of cents); the claim's sum of `finalUnitPrice × quantity`
equals the target when every quantity is 1, but can differ otherwise
(see the counterexample). -/
theorem c1_sum_invariant (t : ℚ) (U : ℤ) (cc : String) (items : List LineItemIn)
    (h : items ≠ []) (ht : isCents t) :
    (lineAmounts t U cc items).sum = t ∧
      ((∀ li ∈ items, qtyOf li.quantity = 1) →
        ((gqlLineItems t U cc items).map finalLineAmount).sum = t) := by
  refine ⟨lineAmounts_sum t U cc items h ht, fun hq => ?_⟩
  have : ((gqlLineItems t U cc items).map finalLineAmount).sum =
      ((gqlAux t U cc items 0).map
        (fun p => p.2.originalUnitPrice.amount * (p.2.quantity : ℚ))).sum := by
    rw [gqlLineItems, List.map_map]
    rfl
  rw [this, gqlAux_prod_qty1 t U cc items 0 hq]
  exact lineAmounts_sum t U cc items h ht

/-- Witness for C1: a concrete all-quantity-1 request where both sums
equal the 10.00 target. -/
theorem c1_sum_invariant_witness :
    (lineAmounts 10 1 "USD" [⟨7, some 1, none⟩]).sum = 10 ∧
      ((gqlLineItems 10 1 "USD" [⟨7, some 1, none⟩]).map finalLineAmount).sum = 10 :=
  ⟨(c1_sum_invariant 10 1 "USD" [⟨7, some 1, none⟩] (by simp)
      ⟨1000, by norm_num⟩).1,
    (c1_sum_invariant 10 1 "USD" [⟨7, some 1, none⟩] (by simp)
      ⟨1000, by norm_num⟩).2 (by intro li hli; simp at hli; simp [hli, qtyOf])⟩

/-- The two-item cart of the spec's proportional-distribution example. -/
def c2Items : List LineItemIn := [⟨1, some 1, none⟩, ⟨2, some 3, none⟩]

/-- C2: in the part_000 distribution every item except the last receives
`round2(itemsTarget × qty/totalUnits)` and the last receives the target
minus the running sum of the earlier amounts; in particular for
quantities 1 and 3 with target 10.01 the line amounts are 2.50 and 7.51. -/
theorem c2_distribution (t : ℚ) (cc : String) (items : List LineItemIn)
    (h : items ≠ []) :
    lineAmounts t (totalUnits000 items) cc items =
        (items.dropLast.map (amt t (totalUnits000 items))) ++
          [round2 (t - ((items.dropLast.map (amt t (totalUnits000 items))).sum))] ∧
      lineAmounts (1001 / 100) (totalUnits000 c2Items) "USD" c2Items =
        [5 / 2, 751 / 100] := by
  constructor
  · exact lineAmounts_eq t (totalUnits000 items) cc items h
  · have e1 : round2 ((1001 : ℚ) / 400) = 5 / 2 := by
      rw [round2_eval (k := 250) (by norm_num) (by norm_num) (by norm_num)]
      norm_num
    have e2 : round2 ((1001 : ℚ) / 100 - 5 / 2) = 751 / 100 := by
      rw [round2_eval (k := 751) (by norm_num) (by norm_num) (by norm_num)]
      norm_num
    have e3 : round2 ((751 : ℚ) / 100) = 751 / 100 := by
      rw [round2_eval (k := 751) (by norm_num) (by norm_num) (by norm_num)]
      norm_num
    have hU : totalUnits000 c2Items = 4 := rfl
    rw [hU]
    simp only [lineAmounts, c2Items, gqlAux, qtyOf, List.map_cons, List.map_nil]
    norm_num [e1, e2, e3]

/-- Witness for C2: the structural equation instantiated at the spec's
example cart. -/
theorem c2_distribution_witness :
    lineAmounts (1001 / 100) (totalUnits000 c2Items) "USD" c2Items =
      (c2Items.dropLast.map (amt (1001 / 100) (totalUnits000 c2Items))) ++
        [round2 ((1001 : ℚ) / 100 -
          ((c2Items.dropLast.map (amt (1001 / 100) (totalUnits000 c2Items))).sum))] :=
  (c2_distribution (1001 / 100) "USD" c2Items (by simp [c2Items])).1

/-- The hint-consistent two-item cart used for C3: hints 4.00 and 6.00
summing exactly to the 10.00 target. -/
def c3Items : List LineItemIn := [⟨1, some 1, some 4⟩, ⟨2, some 1, some 6⟩]

/-- C3 counterexample: on the part_000 reconciler, an item list whose
unit-price hints are consistent with the target (sum 10.00 = target,
within the 0.02 epsilon) is still redistributed proportionally — the
output unit prices are 5.00 and 5.00, not the hints 4.00 and 6.00:
part_000 ignores `price` hints entirely. -/
theorem c3_counterexample :
    (∀ li ∈ c3Items, li.price ≠ none) ∧
      |((c3Items.map (fun li => li.price.getD 0 * (qtyOf li.quantity : ℚ))).sum) - 10| ≤
        2 / 100 ∧
      (gqlLineItems 10 (totalUnits000 c3Items) "USD" c3Items).map
          (fun g => g.originalUnitPrice.amount) = [5, 5] ∧
      (5 : ℚ) ≠ 4 := by
  have e5 : round2 (5 : ℚ) = 5 := round2_eq_self ⟨500, by norm_num⟩
  refine ⟨?_, ?_, ?_, by norm_num⟩
  · intro li hli
    simp only [c3Items, List.mem_cons, List.not_mem_nil, or_false] at hli
    rcases hli with rfl | rfl <;> simp
  · norm_num [c3Items, qtyOf]
  · have hU : totalUnits000 c3Items = 2 := rfl
    rw [hU]
    simp only [c3Items, gqlLineItems, gqlAux, mkGqlItem, qtyOf, List.map_cons,
      List.map_nil]
    norm_num [e5]

/-- C3 (amended): in the part_001 REST variant, an item list in which every
item carries a unit-price hint whose hinted line amounts sum to within
0.02 of the target is passed through verbatim — each output line keeps
its quantity and carries the hinted unit price formatted with
`toFixed(2)`, independent of the target (no redistribution).  The
part_000 reconciler instead ignores hints (see the counterexample). -/
theorem c3_hint_passthrough (target : ℚ) (items : List LineItemIn)
    (_hall : ∀ li ∈ items, li.price ≠ none)
    (_heps : |((items.map (fun li => li.price.getD 0 * (qtyOf li.quantity : ℚ))).sum) -
        target| ≤ 2 / 100) :
    ∀ i li, items.get? i = some li →
      (draftLineItems items).get? i =
        some { variant_id := li.variant_id, quantity := qtyOf li.quantity,
               price := li.price.map toFixed2 } := by
  intro i li hget
  rw [draftLineItems, List.get?_map, hget]
  rfl

/-- Witness for C3: the hint-consistent cart `c3Items` is passed through
by part_001 with its first hint intact. -/
theorem c3_hint_passthrough_witness :
    (draftLineItems c3Items).get? 0 = some ⟨1, 1, some (toFixed2 4)⟩ :=
  c3_hint_passthrough 10 c3Items
    (by intro li hli
        simp only [c3Items, List.mem_cons, List.not_mem_nil, or_false] at hli
        rcases hli with rfl | rfl <;> simp)
    (by norm_num [c3Items, qtyOf]) 0 ⟨1, some 1, some 4⟩ rfl

/-- The concrete request of the C4 counterexample: `total_paid = -5`. -/
def c4Body : Body000 :=
  { total_paid := .num (-5), line_items := some [⟨1, some 1, none⟩] }

/-- C4 counterexample: a negative numeric `capturedTotal` (−5) is NOT
rejected with the invalid-total error; it passes the total check
(`!paidAmount || isNaN`) and is rejected later as a negative items
subtotal. -/
theorem c4_counterexample :
    handler000 none c4Body = .error (400, "NEGATIVE_ITEMS_TOTAL") ∧
      ("NEGATIVE_ITEMS_TOTAL" : String) ≠ "INVALID_TOTAL_PAID" := by
  have e : round2 (-5 : ℚ) = -5 := round2_eq_self ⟨-500, by norm_num⟩
  constructor
  · simp only [handler000, c4Body, paidAmount000, JVal.truthy, parseFloatJ,
      shipPrice000]
    norm_num [e]
  · decide

/-- C4 (amended): the part_000 handler rejects an absent, zero, or
non-numeric `total_paid` with HTTP 400 `INVALID_TOTAL_PAID` (the PayPal
recovery path being unavailable); a negative numeric `total_paid`
instead passes the total check and, with no shipping charge, is
rejected with HTTP 400 `NEGATIVE_ITEMS_TOTAL`. -/
theorem c4_invalid_total (envCur : Option String) (b : Body000)
    (items : List LineItemIn) (h1 : b.line_items = some items) (h2 : items ≠ []) :
    ((b.total_paid = .null ∨ b.total_paid = .num 0 ∨
        (∃ s, b.total_paid = .str s ∧ parseFloatStr s = none)) →
      handler000 envCur b = .error (400, "INVALID_TOTAL_PAID")) ∧
      (∀ q : ℚ, b.total_paid = .num q → q < 0 → isCents q →
        shipPrice000 b.shipping_price = 0 →
        handler000 envCur b = .error (400, "NEGATIVE_ITEMS_TOTAL")) := by
  constructor
  · intro hcase
    have hpaid : paidAmount000 b.total_paid = none := by
      rcases hcase with h | h | ⟨s, h, hs⟩ <;>
        simp [h, paidAmount000, JVal.truthy, parseFloatJ] <;>
        simp [hs]
    simp only [handler000, h1, hpaid]
    simp [List.length_eq_zero, h2]
  · intro q hb hq hc hship
    have hq0 : q ≠ 0 := ne_of_lt hq
    have hpaid : paidAmount000 b.total_paid = some q := by
      simp [hb, paidAmount000, JVal.truthy, parseFloatJ, hq0]
    have htarget : round2 (q - shipPrice000 b.shipping_price) = q := by
      rw [hship, sub_zero, round2_eq_self hc]
    simp only [handler000, h1, hpaid]
    simp [List.length_eq_zero, h2, hq0, htarget, hq]

/-- Witness for C4: `total_paid = "abc"` is rejected as invalid total,
and `total_paid = −5` as a negative items subtotal. -/
theorem c4_invalid_total_witness :
    handler000 none { total_paid := .str "abc"
                      line_items := some [⟨1, some 1, none⟩] } =
      .error (400, "INVALID_TOTAL_PAID") ∧
      handler000 none c4Body = .error (400, "NEGATIVE_ITEMS_TOTAL") :=
  ⟨(c4_invalid_total none _ [⟨1, some 1, none⟩] rfl (by simp)).1
      (Or.inr (Or.inr ⟨"abc", rfl, by rfl⟩)),
    (c4_invalid_total none c4Body [⟨1, some 1, none⟩] rfl (by simp)).2 (-5) rfl
      (by norm_num) ⟨-500, by norm_num⟩ (by rfl)⟩

/-- C5: when a positive two-decimal `capturedTotal` minus the two-decimal
shipping charge is negative, the part_000 handler rejects the request
with HTTP 400 `NEGATIVE_ITEMS_TOTAL`; moreover no accepted request ever
carries a negative items subtotal (`round2(paid − ship) ≥ 0` on every
success path). -/
theorem c5_negative_subtotal (envCur : Option String) (b : Body000)
    (items : List LineItemIn) (paid : ℚ)
    (h1 : b.line_items = some items) (h2 : items ≠ [])
    (hp : paidAmount000 b.total_paid = some paid) (hpos : 0 < paid)
    (hc : isCents paid) (hsc : isCents (shipPrice000 b.shipping_price))
    (hlt : paid - shipPrice000 b.shipping_price < 0) :
    handler000 envCur b = .error (400, "NEGATIVE_ITEMS_TOTAL") ∧
      ∀ (env2 : Option String) (b2 : Body000) (inp : DraftInput000),
        handler000 env2 b2 = .ok inp →
          0 ≤ round2 ((paidAmount000 b2.total_paid).getD 0 -
            shipPrice000 b2.shipping_price) := by
  constructor
  · have htarget : round2 (paid - shipPrice000 b.shipping_price) =
        paid - shipPrice000 b.shipping_price :=
      round2_eq_self (isCents_sub hc hsc)
    have hq0 : paid ≠ 0 := ne_of_gt hpos
    simp only [handler000, h1, hp]
    simp [List.length_eq_zero, h2, hq0, htarget, hlt]
  · intro env2 b2 inp hok
    cases hli : b2.line_items with
    | none => simp [handler000, hli] at hok
    | some items2 =>
      by_cases hlen : items2.length = 0
      · simp [handler000, hli, hlen] at hok
      · cases hpa : paidAmount000 b2.total_paid with
        | none => simp [handler000, hli, hlen, hpa] at hok
        | some p =>
          by_cases hp0 : p = 0
          · simp [handler000, hli, hlen, hpa, hp0] at hok
          · by_cases hneg : round2 (p - shipPrice000 b2.shipping_price) < 0
            · simp [handler000, hli, hlen, hpa, hp0, hneg] at hok
            · simpa using not_lt.mp hneg

/-- The concrete request of the C5 witness: total 10, shipping 15. -/
def c5Body : Body000 :=
  { total_paid := .num 10
    shipping_price := .num 15
    line_items := some [⟨1, some 1, none⟩] }

/-- Witness for C5: `capturedTotal = 10, shippingCharge = 15` is rejected
with `NEGATIVE_ITEMS_TOTAL`. -/
theorem c5_negative_subtotal_witness :
    handler000 none c5Body = .error (400, "NEGATIVE_ITEMS_TOTAL") :=
  (c5_negative_subtotal none c5Body [⟨1, some 1, none⟩] 10 rfl (by simp)
    (by norm_num [c5Body, paidAmount000, JVal.truthy, parseFloatJ]) (by norm_num)
    ⟨1000, by norm_num⟩
    (by rw [show shipPrice000 c5Body.shipping_price = 15 from by
          norm_num [c5Body, shipPrice000, JVal.truthy, parseFloatJ]]
        exact ⟨1500, by norm_num⟩)
    (by norm_num [c5Body, shipPrice000, JVal.truthy, parseFloatJ])).1

/-- C6: when the quantities (omitted/falsy ones defaulting to 1) sum to
≤ 0 in an otherwise-valid request, the part_000 handler fails with
HTTP 400 `INVALID_QUANTITIES`, producing no reconciled items. -/
theorem c6_invalid_quantities (envCur : Option String) (b : Body000)
    (items : List LineItemIn) (paid : ℚ)
    (h1 : b.line_items = some items) (h2 : items ≠ [])
    (hp : paidAmount000 b.total_paid = some paid) (hp0 : paid ≠ 0)
    (ht : ¬ round2 (paid - shipPrice000 b.shipping_price) < 0)
    (hq : totalUnits000 items ≤ 0) :
    handler000 envCur b = .error (400, "INVALID_QUANTITIES") := by
  simp only [handler000, h1, hp]
  simp [List.length_eq_zero, h2, hp0, ht, hq]

/-- The concrete request of the C6 witness: quantities −2 and omitted
(defaulting to 1), summing to −1. -/
def c6Body : Body000 :=
  { total_paid := .num 10
    line_items := some [⟨1, some (-2), none⟩, ⟨2, none, none⟩] }

/-- Witness for C6: the `c6Body` request fails with `INVALID_QUANTITIES`. -/
theorem c6_invalid_quantities_witness :
    handler000 none c6Body = .error (400, "INVALID_QUANTITIES") :=
  c6_invalid_quantities none c6Body [⟨1, some (-2), none⟩, ⟨2, none, none⟩] 10 rfl
    (by simp) (by norm_num [c6Body, paidAmount000, JVal.truthy, parseFloatJ])
    (by norm_num)
    (by rw [show shipPrice000 c6Body.shipping_price = 0 from rfl, sub_zero,
          round2_eq_self ⟨1000, by norm_num⟩]
        norm_num)
    (by norm_num [totalUnits000, qtyOf])

/-- The concrete build input of the C7 counterexample:
`shipping_price = 0` with a label present. -/
def c7Body : BodyS :=
  { shipping_label := some "Ship", shipping_price := .num 0 }

/-- C7 counterexample: in the server.js variant, a build input with
`shipping_price = 0` still produces a shipping line entry (the guard is
only `!== "" && != null`), contradicting the claim that a zero shipping
charge yields no shipping line in every built request. -/
theorem c7_counterexample :
    (serverDraftInput c7Body).shippingLine ≠ none ∧
      c7Body.shipping_price = .num 0 := by
  constructor
  · simp [serverDraftInput, c7Body]
  · rfl

/-- C7 (amended): the part_000 builder emits no shipping line when
`shipPrice = 0` and emits one only when `shipPrice > 0` (a truthy label
is also required); likewise the part_001 builder suppresses the line at
`Number(shipping_price) = 0` and emits one only for a positive numeric
value.  The server.js variant, by contrast, emits a zero-price shipping
line (see the counterexample). -/
theorem c7_shipping_suppression :
    (∀ (gql : List GqlLineItem) (note : String) (addr : Option Addr000)
        (label : Option String), (input000 gql note addr 0 label).shippingLine = none) ∧
      (∀ (gql : List GqlLineItem) (note : String) (addr : Option Addr000)
          (sp : ℚ) (label : Option String) (sl : ShipLine000),
        (input000 gql note addr sp label).shippingLine = some sl → 0 < sp) ∧
      (∀ label : Option String, shippingLine001 (.num 0) label = none) ∧
      (∀ (sp : JVal) (label : Option String) (sl : ShipLine001),
        shippingLine001 sp label = some sl → ∃ q, jsNumber sp = some q ∧ 0 < q) := by
  refine ⟨?_, ?_, ?_, ?_⟩
  · intro gql note addr label
    simp [input000]
  · intro gql note addr sp label sl h
    by_cases hsp : 0 < sp
    · exact hsp
    · simp [input000, hsp] at h
  · intro label
    simp [shippingLine001, jsNumber]
  · intro sp label sl h
    cases hn : jsNumber sp with
    | none => simp [shippingLine001, hn] at h
    | some q =>
      by_cases hq : 0 < q
      · exact ⟨q, rfl, hq⟩
      · simp [shippingLine001, hn, hq] at h

/-- Witness for C7: concrete zero- and positive-price instantiations of
all four suppression facts. -/
theorem c7_shipping_suppression_witness :
    (input000 [] "" none 0 none).shippingLine = none ∧
      (0 : ℚ) < 5 ∧
      shippingLine001 (.num 0) none = none ∧
      ∃ q, jsNumber (.num 5) = some q ∧ 0 < q :=
  ⟨c7_shipping_suppression.1 [] "" none none,
    c7_shipping_suppression.2.1 [] "" none 5 (some "X")
      { title := "X", price := toFixed2 5 }
      (by
        have h5 : (0 : ℚ) < 5 := by norm_num
        simp only [input000, if_pos h5]
        rw [if_neg (by decide : ¬("X" = ""))]),
    c7_shipping_suppression.2.2.1 none,
    c7_shipping_suppression.2.2.2 (.num 5) none
      { title := "Shipping", price := toFixed2 5 }
      (by norm_num [shippingLine001, jsNumber, orStr])⟩

/-- C8: in the server.js and part_001 builders, a build input whose
address carries a (truthy) email places that email at the order level,
and the billing/shipping address sub-objects contain no `email` key. -/
theorem c8_email_placement (A : AddrIn) (e : String) (he : A.email = some e)
    (hne : e ≠ "") (b : BodyS) (hb : b.address = some A)
    (d : String) (b1 : Body001) (hb1 : b1.address = some A) :
    (serverDraftInput b).email = some e ∧
      "email" ∉ (serverDraftInput b).billingAddress.map Prod.fst ∧
      "email" ∉ (serverDraftInput b).shippingAddress.map Prod.fst ∧
      (draftOrder001 d b1).email = e ∧
      (∀ l, (draftOrder001 d b1).shipping_address = some l →
        "email" ∉ l.map Prod.fst) ∧
      (∀ l, (draftOrder001 d b1).billing_address = some l →
        "email" ∉ l.map Prod.fst) := by
  refine ⟨?_, ?_, ?_, ?_, ?_, ?_⟩
  · simp [serverDraftInput, hb, jsOrUndef, jsOrNull, he, hne]
  · simp [serverDraftInput, addrListS, hb]
  · simp [serverDraftInput, addrListS, hb]
  · simp [draftOrder001, orderEmail001, hb1, he, hne]
  · intro l hl
    simp [draftOrder001, hb1] at hl
    subst hl
    simp [shippingAddress001]
  · intro l hl
    simp [draftOrder001, hb1] at hl
    subst hl
    simp [shippingAddress001]

/-- The address of the C8 witness. -/
def c8Addr : AddrIn := { email := some "x@y.z" }

/-- Witness for C8: a concrete address with email `x@y.z`. -/
theorem c8_email_placement_witness :
    (serverDraftInput { address := some c8Addr }).email = some "x@y.z" ∧
      "email" ∉ (serverDraftInput { address := some c8Addr }).billingAddress.map Prod.fst :=
  ⟨(c8_email_placement c8Addr "x@y.z" rfl (by decide) { address := some c8Addr } rfl
      "d" { address := some c8Addr } rfl).1,
    (c8_email_placement c8Addr "x@y.z" rfl (by decide) { address := some c8Addr } rfl
      "d" { address := some c8Addr } rfl).2.1⟩

/-- C9 counterexample: the part_000 builder does not default absent
address fields to the empty string — an all-absent address yields
`firstName = "PayPal"`, `lastName = "Customer"`, `country = "US"`. -/
theorem c9_counterexample :
    (shippingAddress000 {}).firstName = "PayPal" ∧
      ("PayPal" : String) ≠ "" ∧
      (shippingAddress000 {}).lastName = "Customer" ∧
      (shippingAddress000 {}).country = "US" :=
  ⟨rfl, by decide, rfl, rfl⟩

/-- C9 (amended): in the part_001 REST builder every absent field among
first name, last name, address line, city, postal code, country code
and phone defaults to the empty string in the built address sub-object,
and the billing sub-object is a copy of the shipping one; the part_000
builder instead defaults firstName/lastName/country to
'PayPal'/'Customer'/'US' and phone to null (see the counterexample). -/
theorem c9_empty_defaults (a : AddrIn) :
    (a.firstName = none → (shippingAddress001 a).lookup "first_name" = some "") ∧
      (a.lastName = none → (shippingAddress001 a).lookup "last_name" = some "") ∧
      (a.address1 = none → (shippingAddress001 a).lookup "address1" = some "") ∧
      (a.city = none → (shippingAddress001 a).lookup "city" = some "") ∧
      (a.zip = none → (shippingAddress001 a).lookup "zip" = some "") ∧
      (a.country = none → (shippingAddress001 a).lookup "country" = some "") ∧
      (a.phone = none → (shippingAddress001 a).lookup "phone" = some "") ∧
      (∀ (d : String) (b : Body001),
        (draftOrder001 d b).billing_address = (draftOrder001 d b).shipping_address) := by
  refine ⟨?_, ?_, ?_, ?_, ?_, ?_, ?_, fun d b => rfl⟩ <;>
    (intro h; simp only [shippingAddress001]; rw [h]; rfl)

/-- Witness for C9: the all-absent address maps to empty strings in every
part_001 field. -/
theorem c9_empty_defaults_witness :
    (shippingAddress001 {}).lookup "first_name" = some "" ∧
      (shippingAddress001 {}).lookup "phone" = some "" :=
  ⟨(c9_empty_defaults {}).1 rfl, (c9_empty_defaults {}).2.2.2.2.2.2.1 rfl⟩

/-- C10: a request to the part_001 REST handler whose payload carries no
(truthy) address email still produces a draft order with a non-empty
order-level email: the `DEFAULT_ORDER_EMAIL` environment value, or
`orders@example.com` when that variable is unset (or empty). -/
theorem c10_default_email (env : Option String) (b : Body001)
    (hb : b.address = none ∨
      ∃ a, b.address = some a ∧ (a.email = none ∨ a.email = some "")) :
    (draftOrder001 (DEFAULT_ORDER_EMAIL env) b).email = DEFAULT_ORDER_EMAIL env ∧
      DEFAULT_ORDER_EMAIL env ≠ "" ∧
      (env = none → DEFAULT_ORDER_EMAIL env = "orders@example.com") ∧
      (∀ s, env = some s → s ≠ "" → DEFAULT_ORDER_EMAIL env = s) := by
  refine ⟨?_, ?_, ?_, ?_⟩
  · rcases hb with h | ⟨a, h, he | he⟩
    · simp [draftOrder001, orderEmail001, h]
    · simp [draftOrder001, orderEmail001, h, he]
    · simp [draftOrder001, orderEmail001, h, he]
  · cases env with
    | none => decide
    | some s =>
      by_cases hs : s = ""
      · simp [DEFAULT_ORDER_EMAIL, orStr, hs]
      · simp [DEFAULT_ORDER_EMAIL, orStr, hs]
  · intro h
    rw [h]
    rfl
  · intro s h hs
    simp [DEFAULT_ORDER_EMAIL, orStr, h, hs]

/-- Witness for C10: with the environment variable unset and an
email-less payload, the draft order's email is `orders@example.com`. -/
theorem c10_default_email_witness :
    (draftOrder001 (DEFAULT_ORDER_EMAIL none) {}).email = DEFAULT_ORDER_EMAIL none ∧
      DEFAULT_ORDER_EMAIL none ≠ "" ∧
      DEFAULT_ORDER_EMAIL none = "orders@example.com" :=
  ⟨(c10_default_email none {} (Or.inl rfl)).1,
    (c10_default_email none {} (Or.inl rfl)).2.1,
    (c10_default_email none {} (Or.inl rfl)).2.2.1 rfl⟩
